import Mathlib

/-!
Shallow embedding of the kudo-oos Go backend (CRUD persistence layer,
bookmark service, HTTP middlewares and handlers) together with proofs
about the properties its specification states.

The Go source consists of:
  * `pkg/core/kudo.go`        — the persisted `Kudo` record,
  * `pkg/kudo/service.go`     — `GitHubRepo`, `Service` and its operations,
  * `pkg/storage/mongo.go`    — `MongoRepository` over an mgo collection,
  * `pkg/http/middlewares.go` — `OktaAuth`, `JSONApi`, `Cors`, `AccsessLog`,
  * `pkg/http/handlers.go`    — the four route handlers.

MongoDB collections are modelled as a `List Kudo`; the mgo calls the code
makes (`Find(...).One`, `Find(...).All`, `Remove`, `Update`, `Upsert`,
`Count`) are given their documented semantics on that list.  A session in
safe mode (the default for sessions obtained from `mgo.Dial`) reports
`ErrNotFound` from `Remove`/`Update` when no document matches.
Machine integers are modelled as `Int` (Go `int` is 64-bit on the
platforms this tutorial targets, so the conversion `int(x)` from `int64`
is value-preserving); where overflow matters it is made explicit.
-/

/-- Kudo represents an oos kudo — the persisted record (`pkg/core/kudo.go`).
Field order and names follow the Go struct; the bson keys used for
addressing are `userId` (`UserID`) and `repoId` (`RepoID`). -/
structure Kudo where
  UserID : String
  RepoID : String
  RepoName : String
  RepoURL : String
  Language : String
  Description : String
  Notes : String
  deriving DecidableEq

/-- GitHubRepo is the external repository representation received in request
payloads (`pkg/kudo/service.go`).  `RepoID` is an `int64` in Go. -/
structure GitHubRepo where
  RepoID : Int
  RepoURL : String
  RepoName : String
  Language : String
  Description : String
  Notes : String
  deriving DecidableEq

/-- Zero value of `GitHubRepo`, as produced by `kudo.GitHubRepo{}` in Go
(every field at its zero value). -/
def GitHubRepo.zero : GitHubRepo :=
  { RepoID := 0, RepoURL := "", RepoName := "", Language := "",
    Description := "", Notes := "" }

/-- Decimal digit characters, as used by `strconv`'s integer formatting
(only digits below ten are ever produced for base 10). -/
def digitChar : Nat → Char
  | 0 => '0'
  | 1 => '1'
  | 2 => '2'
  | 3 => '3'
  | 4 => '4'
  | 5 => '5'
  | 6 => '6'
  | 7 => '7'
  | 8 => '8'
  | 9 => '9'
  | _ => '*'

/-- Character list of the decimal representation of a natural number,
most significant digit first; `0` prints as `"0"`. -/
def natToStrChars (n : Nat) : List Char :=
  if n = 0 then ['0'] else ((Nat.digits 10 n).reverse).map digitChar

/-- Model of Go's `strconv.Itoa` on the mathematical value of its argument:
decimal digits, preceded by `'-'` for negative numbers. -/
def Itoa (i : Int) : String :=
  if i < 0 then ⟨'-' :: natToStrChars i.natAbs⟩ else ⟨natToStrChars i.natAbs⟩

/-- Numeric value of a decimal digit character (left inverse of
`digitChar` on digits). -/
def charToDigit (c : Char) : Nat := c.toNat - 48

/-- Value of a most-significant-first list of decimal digit characters. -/
def decChars (l : List Char) : Nat :=
  Nat.ofDigits 10 ((l.map charToDigit).reverse)

/-- Recovery function for the stored string identifier: reads an optional
leading minus sign and decimal digits back into an integer.  This is the
specification-side witness that the coercion performed by
`Service.githubRepoToKudo` is lossless. -/
def decodeId (s : String) : Int :=
  if s.data.head? = some '-' then -(decChars s.data.tail : Int)
  else (decChars s.data : Int)

/-- Accumulated value of a decimal digit string, as built by a
left-to-right parse. -/
def decValue (l : List Char) : Nat :=
  l.foldl (fun a c => a * 10 + (c.toNat - 48)) 0

/-- Digits-only parse: succeeds exactly on a non-empty all-digit string
(the syntax `strconv.ParseInt` accepts after an optional sign, base 10). -/
def digitsToNum (l : List Char) : Option Nat :=
  if !l.isEmpty && l.all Char.isDigit then some (decValue l) else none

/-- Mathematical value denoted by a string under Go's base-10 integer
syntax (optional `+`/`-` sign followed by one or more digits), or `none`
when the string is not a decimal integer string. -/
def parseDecimal (s : String) : Option Int :=
  match s.data with
  | '+' :: l => (digitsToNum l).map (fun n => (n : Int))
  | '-' :: l => (digitsToNum l).map (fun n => -(n : Int))
  | l => (digitsToNum l).map (fun n => (n : Int))

/-- Model of Go's `strconv.Atoi` (= `ParseInt(s, 10, 0)` with 64-bit `int`):
returns the parsed value and an ok flag.  On a syntax error the value is
`0`; on range overflow the value is clamped to the nearest `int64` bound.
The ok flag is `false` exactly when Go returns a non-nil error. -/
def Atoi (s : String) : Int × Bool :=
  match parseDecimal s with
  | none => (0, false)
  | some v =>
    if v < -(2 ^ 63) then (-(2 ^ 63), false)
    else if (2 ^ 63) ≤ v then (2 ^ 63 - 1, false)
    else (v, true)

/-- Selector match for the key the MongoRepository addresses documents by:
the bson filter `bson.M{"repoId": kudo.RepoID, "userId": kudo.UserID}`
tested against a stored document. -/
def kudoKeyEq (kudo k : Kudo) : Bool :=
  k.RepoID == kudo.RepoID && k.UserID == kudo.UserID

/-- Replace the first document matching the key of `kudo` with `kudo`
(the update half of mgo's `Upsert` with a replacement document). -/
def replaceFirst : List Kudo → Kudo → List Kudo
  | [], _ => []
  | k :: rest, kudo =>
    if kudoKeyEq kudo k then kudo :: rest else k :: replaceFirst rest kudo

/-- One `coll.Upsert(bson.M{"repoId": ..., "userId": ...}, kudo)` step:
replace the matching document when the key is present, insert otherwise. -/
def upsertOne (store : List Kudo) (kudo : Kudo) : List Kudo :=
  if store.any (kudoKeyEq kudo) then replaceFirst store kudo
  else store ++ [kudo]

/-- Errors the modelled mgo calls can report.  A safe-mode session (the
default for `mgo.Dial`) returns `ErrNotFound` from `Remove` and `Update`
when no document matches the selector. -/
inductive MgoError
  | notFound
  deriving DecidableEq

/-- Find fetches a kudo from mongo according to the query criteria provided
(`MongoRepository.Find` in `pkg/storage/mongo.go`).  The Go method takes
only `repoID`; its `userId` criterion is `kudo.UserID` read from the
freshly declared, still zero-valued result variable, so the filter is
always `userId = ""`. -/
def MongoRepository.Find (repoID : String) (store : List Kudo) : Option Kudo :=
  store.find? (fun k => k.RepoID == repoID && k.UserID == "")

/-- FindAll fetches all kudos matching the selector.  The only selector the
program ever builds is `map[string]interface{}{"userId": ...}`, so the
selector is modelled as the required `userId` value. -/
def MongoRepository.FindAll (userIdSel : String) (store : List Kudo) : List Kudo :=
  store.filter (fun k => k.UserID == userIdSel)

/-- Remove the first document matching the selector (the effect of a
successful mgo `Remove`). -/
def removeFirstMatch : List Kudo → (Kudo → Bool) → List Kudo
  | [], _ => []
  | k :: rest, p => if p k then rest else k :: removeFirstMatch rest p

/-- Delete deletes a kudo matching the key of `kudo`
(`coll.Remove`): removes a single matching document, and reports
`ErrNotFound` when no document matches. -/
def MongoRepository.Delete (store : List Kudo) (kudo : Kudo) :
    Except MgoError (List Kudo) :=
  if store.any (kudoKeyEq kudo) then .ok (removeFirstMatch store (kudoKeyEq kudo))
  else .error .notFound

/-- Update updates a kudo (`coll.Update` with a replacement document):
replaces a single matching document, `ErrNotFound` when none matches. -/
def MongoRepository.Update (store : List Kudo) (kudo : Kudo) :
    Except MgoError (List Kudo) :=
  if store.any (kudoKeyEq kudo) then .ok (replaceFirst store kudo)
  else .error .notFound

/-- Create kudos in the database: one `Upsert` per argument, in order
(the variadic loop in `MongoRepository.Create`; upserts on the pure
store model cannot fail, so the early-error return is never taken). -/
def MongoRepository.Create (store : List Kudo) (kudos : List Kudo) : List Kudo :=
  kudos.foldl upsertOne store

/-- Count counts documents for a given collection. -/
def MongoRepository.Count (store : List Kudo) : Nat :=
  store.length

/-- Bookmark service (`pkg/kudo/service.go`), constructed with the bound
user identifier.  The Go struct also carries the `core.Repository`
handle; in the model the store value is threaded explicitly through each
operation instead. -/
structure Service where
  userId : String

/-- NewService constructs the kudo service bound to `userId`. -/
def NewService (userId : String) : Service :=
  { userId := userId }

/-- Mapping from the external repository representation to the persisted
record (`Service.githubRepoToKudo`): the owner is the bound user and the
numeric identifier is coerced with `strconv.Itoa(int(githubRepo.RepoID))`
(value-preserving on a 64-bit `int` platform). -/
def Service.githubRepoToKudo (s : Service) (githubRepo : GitHubRepo) : Kudo :=
  { UserID := s.userId
    RepoID := Itoa githubRepo.RepoID
    RepoName := githubRepo.RepoName
    RepoURL := githubRepo.RepoURL
    Language := githubRepo.Language
    Description := githubRepo.Description
    Notes := githubRepo.Notes }

/-- GetKudos lists the bound owner's records:
`s.repo.FindAll(map[string]interface{}{"userId": s.userId})`. -/
def Service.GetKudos (s : Service) (store : List Kudo) : List Kudo :=
  MongoRepository.FindAll s.userId store

/-- CreateKudoFor maps the external repo to a record and upserts it,
returning the mapped record (`Service.CreateKudoFor`; the store-level
upsert cannot fail in the model, so the error return is never taken). -/
def Service.CreateKudoFor (s : Service) (githubRepo : GitHubRepo)
    (store : List Kudo) : Kudo × List Kudo :=
  let kudo := s.githubRepoToKudo githubRepo
  (kudo, MongoRepository.Create store [kudo])

/-- UpdateKudoWith maps the external repo to a record and upserts it via
`repo.Create` — the same call `CreateKudoFor` makes
(`Service.UpdateKudoWith`). -/
def Service.UpdateKudoWith (s : Service) (githubRepo : GitHubRepo)
    (store : List Kudo) : Kudo × List Kudo :=
  let kudo := s.githubRepoToKudo githubRepo
  (kudo, MongoRepository.Create store [kudo])

/-- RemoveKudo maps the external repo to a record and deletes it by key,
returning the mapped record on success and propagating the store error
otherwise (`Service.RemoveKudo`). -/
def Service.RemoveKudo (s : Service) (githubRepo : GitHubRepo)
    (store : List Kudo) : Except MgoError (Kudo × List Kudo) :=
  let kudo := s.githubRepoToKudo githubRepo
  match MongoRepository.Delete store kudo with
  | .error e => .error e
  | .ok store' => .ok (kudo, store')

/-- Split a character list around every space, the semantics of Go's
`strings.Split(s, " ")`: the result is never empty, and a string with no
space yields a single fragment. -/
def splitChars : List Char → List (List Char)
  | [] => [[]]
  | c :: rest =>
    match splitChars rest with
    | [] => [[]]
    | w :: ws => if c = ' ' then [] :: w :: ws else (c :: w) :: ws

/-- Model of `strings.Split(s, " ")`. -/
def splitOnSpace (s : String) : List String :=
  (splitChars s.data).map (fun l => ⟨l⟩)

/-- Verified JWT, as returned by the Okta verifier.  The Go code reads
`jwt.Claims["sub"].(string)`; `sub` is `none` when the claims map has no
string `sub` entry, in which case that type assertion panics. -/
structure Jwt where
  sub : Option String

/-- Outcome of `validateAccessToken` (`pkg/http/middlewares.go`).  The
function can panic on its inputs — `accessToken[0]` when the header slice
is empty, `parts[1]` when the header value contains no space — which is a
distinct outcome from the verifier rejecting the token. -/
inductive TokenCheck
  | panicked
  | failed (msg : String)
  | verified (jwt : Jwt)

/-- validateAccessToken splits `accessToken[0]` around spaces and hands
`parts[1]` to the Okta verifier.  The verifier itself (issuer, audience
and client-id checks against the identity provider) is external and is
abstracted as the `verify` parameter. -/
def validateAccessToken (verify : String → Except String Jwt)
    (accessToken : List String) : TokenCheck :=
  match accessToken with
  | [] => .panicked
  | tok :: _ =>
    match splitOnSpace tok with
    | _ :: part1 :: _ =>
      match verify part1 with
      | .error e => .failed e
      | .ok jwt => .verified jwt
    | _ => .panicked

/-- Response under construction, the observable state of Go's
`http.ResponseWriter`: headers, the status code once written, and the
body bytes written so far. -/
structure ResponseWriter where
  headers : List (String × String)
  status : Option Nat
  body : String
  deriving DecidableEq

/-- Fresh response writer handed to the outermost handler. -/
def emptyWriter : ResponseWriter :=
  { headers := [], status := none, body := "" }

/-- Model of `w.Header().Set(k, v)`: replaces any existing values of the
key. -/
def headerSet (w : ResponseWriter) (k v : String) : ResponseWriter :=
  { w with headers := (k, v) :: w.headers.filter (fun p => p.1 != k) }

/-- Model of `w.WriteHeader(code)`: the first written status wins,
subsequent calls are ignored. -/
def writeHeader (w : ResponseWriter) (code : Nat) : ResponseWriter :=
  match w.status with
  | some _ => w
  | none => { w with status := some code }

/-- Model of `w.Write(...)`: appends to the body, implicitly writing a 200
status when none has been written yet. -/
def bodyWrite (w : ResponseWriter) (s : String) : ResponseWriter :=
  match w.status with
  | some _ => { w with body := w.body ++ s }
  | none => { w with status := some 200, body := w.body ++ s }

/-- Registered routes of the httprouter instance built in `New`
(`pkg/http/handlers.go`); pattern matching of the request path is
abstracted to the matched route, with `paramId` carrying `:id`. -/
inductive Route
  | index
  | create
  | delete
  | update

/-- Inbound HTTP request as the modelled layers observe it:
`authHeader` is `r.Header["Authorization"]` (empty list when the header
is absent), `body` is the result of `json.Unmarshal` on the payload into
a zero `GitHubRepo` (`none` when the payload is unparsable, in which case
the handler keeps the zero value because it discards the error),
`paramId` is `params.ByName("id")`, and `ctxUserId` is the
`"userId"` context value installed by the authentication middleware. -/
structure Request where
  route : Route
  authHeader : List String
  body : Option GitHubRepo
  paramId : String
  ctxUserId : Option String

/-- Result of running a handler: either a completed response together with
the resulting store contents, or a panic escaping the handler. -/
inductive HOutcome
  | panicked
  | done (w : ResponseWriter) (store : List Kudo)
  deriving DecidableEq

/-- Handlers consume the request, the current store contents and the
response writer. -/
def Handler : Type :=
  Request → List Kudo → ResponseWriter → HOutcome

/-- JSON rendering of a string value; escaping of special characters is
not modelled (no claim inspects body contents). -/
def jsonStr (s : String) : String :=
  "\"" ++ s ++ "\""

/-- JSON object `encoding/json` produces for a `Kudo`, following the
struct's json tags in field order. -/
def encodeKudo (k : Kudo) : String :=
  "\x7b\"user_id\":" ++ jsonStr k.UserID ++
  ",\"id\":" ++ jsonStr k.RepoID ++
  ",\"full_name\":" ++ jsonStr k.RepoName ++
  ",\"html_url\":" ++ jsonStr k.RepoURL ++
  ",\"language\":" ++ jsonStr k.Language ++
  ",\"description\":" ++ jsonStr k.Description ++
  ",\"notes\":" ++ jsonStr k.Notes ++ "\x7d"

/-- JSON array of kudo objects. -/
def encodeKudos (ks : List Kudo) : String :=
  "[" ++ String.intercalate "," (ks.map encodeKudo) ++ "]"

/-- GET /kudos handler (`Service.Index` in `pkg/http/handlers.go`): reads
the authenticated user from the request context (the `.(string)` type
assertion panics when it is absent), lists the owner's kudos and encodes
them with a 200 status.  `FindAll` on the pure store model cannot fail,
so the 500 branch is unreachable here. -/
def Http.Index : Handler := fun r store w =>
  match r.ctxUserId with
  | none => .panicked
  | some uid =>
    let service := NewService uid
    let kudos := service.GetKudos store
    .done (bodyWrite (writeHeader w 200) (encodeKudos kudos ++ "\n")) store

/-- POST /kudos handler (`Service.Create`): deserializes the payload into
a zero `GitHubRepo` ignoring the `json.Unmarshal` error, upserts through
`CreateKudoFor` and answers 201 with the created record.  The upsert
cannot fail in the model, so the 500 branch is unreachable here. -/
def Http.Create : Handler := fun r store w =>
  match r.ctxUserId with
  | none => .panicked
  | some uid =>
    let service := NewService uid
    let githubRepo := r.body.getD GitHubRepo.zero
    let res := service.CreateKudoFor githubRepo store
    .done (bodyWrite (writeHeader w 201) (encodeKudo res.1 ++ "\n")) res.2

/-- DELETE /kudos/:id handler (`Service.Delete`): parses `:id` with
`strconv.Atoi` discarding the error, removes the record keyed by the
parsed id for the authenticated owner, and answers 200 on success or 500
when the store call errors. -/
def Http.Delete : Handler := fun r store w =>
  match r.ctxUserId with
  | none => .panicked
  | some uid =>
    let service := NewService uid
    let repoID := (Atoi r.paramId).1
    let githubRepo : GitHubRepo :=
      { RepoID := repoID, RepoURL := "", RepoName := "", Language := "",
        Description := "", Notes := "" }
    match service.RemoveKudo githubRepo store with
    | .error _ => .done (writeHeader w 500) store
    | .ok res => .done (writeHeader w 200) res.2

/-- PUT /kudos/:id handler (`Service.Update`): identical deserialization
and upsert to the create handler, answering 200. -/
def Http.Update : Handler := fun r store w =>
  match r.ctxUserId with
  | none => .panicked
  | some uid =>
    let service := NewService uid
    let githubRepo := r.body.getD GitHubRepo.zero
    let res := service.UpdateKudoWith githubRepo store
    .done (bodyWrite (writeHeader w 200) (encodeKudo res.1 ++ "\n")) res.2

/-- Route dispatch of the httprouter instance registered in `New`. -/
def router : Handler := fun r store w =>
  match r.route with
  | .index => Http.Index r store w
  | .create => Http.Create r store w
  | .delete => Http.Delete r store w
  | .update => Http.Update r store w

/-- OktaAuth middleware: validates the Authorization header and either
aborts with 403 and the verification error as body, or installs the
token's `sub` claim as the `"userId"` context value and calls the inner
handler.  Panics of `validateAccessToken` and of the `.(string)` claim
assertion escape. -/
def OktaAuth (verify : String → Except String Jwt) (h : Handler) : Handler :=
  fun r store w =>
    match validateAccessToken verify r.authHeader with
    | .panicked => .panicked
    | .failed e => .done (bodyWrite (writeHeader w 403) e) store
    | .verified jwt =>
      match jwt.sub with
      | none => .panicked
      | some uid => h { r with ctxUserId := some uid } store w

/-- JSONApi middleware: sets `Content-Type: application/json` on the
response and calls the inner handler. -/
def JSONApi (h : Handler) : Handler := fun r store w =>
  h r store (headerSet w "Content-Type" "application/json")

/-- AccsessLog middleware (name as in the source): logs the call — a pure
no-op on the modelled state — and calls the inner handler. -/
def AccsessLog (h : Handler) : Handler := fun r store w =>
  h r store w

/-- Cors middleware: the rs/cors wrapper injects CORS headers for
cross-origin requests and answers preflights itself; neither affects the
routed requests the claims are about, so it is modelled as delegation. -/
def Cors (h : Handler) : Handler := fun r store w =>
  h r store w

/-- UseMiddlewares composes the middleware chain exactly as the source
does: `h = JSONApi(h); h = OktaAuth(h); h = Cors(h); return AccsessLog(h)`. -/
def UseMiddlewares (verify : String → Except String Jwt) (h : Handler) : Handler :=
  AccsessLog (Cors (OktaAuth verify (JSONApi h)))

/-- Complete HTTP surface: the middleware chain around the router, as
assembled by `New`. -/
def App (verify : String → Except String Jwt) : Handler :=
  UseMiddlewares verify router

/-- Sub claim the gate would install for a given Authorization header
value, `none` when the gate panics or rejects; used to phrase
"the request passes the authentication gate". -/
def gateSub (verify : String → Except String Jwt) (hdr : List String) :
    Option String :=
  match validateAccessToken verify hdr with
  | .verified jwt => jwt.sub
  | _ => none

/-- Headers of a finished response; a panic has no response. -/
def headersOf : HOutcome → List (String × String)
  | .panicked => []
  | .done w _ => w.headers

/-- Store contents after a fallible store call, the database being left
untouched when the call errors. -/
def removeResultStore (r : Except MgoError (Kudo × List Kudo))
    (store : List Kudo) : List Kudo :=
  match r with
  | .ok res => res.2
  | .error _ => store

/-- Records belonging to a given owner. -/
def ownerRecords (owner : String) (store : List Kudo) : List Kudo :=
  store.filter (fun k => k.UserID == owner)

/-- Number of records stored under the key of `kudo`. -/
def countKey (store : List Kudo) (kudo : Kudo) : Nat :=
  (store.filter (kudoKeyEq kudo)).length

/-- One service operation performed through a bookmark service bound to an
owner, for stating that record ownership is an authorization boundary. -/
inductive SvcOp
  | add (g : GitHubRepo)
  | replace (g : GitHubRepo)
  | remove (g : GitHubRepo)

/-- Store contents after one operation of the service bound to `owner`. -/
def applyOp (owner : String) (store : List Kudo) : SvcOp → List Kudo
  | .add g => ((NewService owner).CreateKudoFor g store).2
  | .replace g => ((NewService owner).UpdateKudoWith g store).2
  | .remove g => removeResultStore ((NewService owner).RemoveKudo g store) store

/-- Store contents after a sequence of operations of the service bound to
`owner`. -/
def applyOps (owner : String) (ops : List SvcOp) (store : List Kudo) : List Kudo :=
  ops.foldl (applyOp owner) store

/-- Fixture: service bound to owner u1. -/
def svcU1 : Service := NewService "u1"

/-- Fixture: external repo 42, first bookmark action. -/
def repo42a : GitHubRepo :=
  { RepoID := 42, RepoURL := "https://x", RepoName := "foo/bar",
    Language := "Go", Description := "d", Notes := "a" }

/-- Fixture: external repo 42 again, carrying different field values. -/
def repo42b : GitHubRepo :=
  { RepoID := 42, RepoURL := "https://y", RepoName := "foo/bar",
    Language := "Go", Description := "d2", Notes := "b" }

/-- Fixture: external repo with a negative identifier. -/
def repoNeg7 : GitHubRepo :=
  { RepoID := -7, RepoURL := "", RepoName := "", Language := "",
    Description := "", Notes := "" }

/-- Fixture: a stored record owned by u1 for repository 42. -/
def kudoU1of42 : Kudo :=
  { UserID := "u1", RepoID := "42", RepoName := "foo/bar",
    RepoURL := "https://x", Language := "Go", Description := "d", Notes := "" }

/-- Fixture: a stored record owned by u2. -/
def kudoU2of7 : Kudo :=
  { UserID := "u2", RepoID := "7", RepoName := "baz", RepoURL := "https://z",
    Language := "Rust", Description := "e", Notes := "" }

/-- Fixture: a verifier that rejects every token. -/
def rejectAll : String → Except String Jwt := fun _ => .error "Unauthorized"

/-- Fixture: a verifier accepting exactly the token "good" for subject u1. -/
def verifyU1 : String → Except String Jwt :=
  fun t => if t == "good" then .ok { sub := some "u1" } else .error "Unauthorized"

/-- Fixture: request with no Authorization header at all. -/
def reqNoAuthHeader : Request :=
  { route := .index, authHeader := [], body := none, paramId := "",
    ctxUserId := none }

/-- Fixture: request whose Authorization value has no space separator. -/
def reqNoSpaceHeader : Request :=
  { route := .index, authHeader := ["BearerTok"], body := none, paramId := "",
    ctxUserId := none }

/-- Fixture: request with a well-formed header carrying a bad token. -/
def reqBadTok : Request :=
  { route := .index, authHeader := ["Bearer t"], body := none, paramId := "",
    ctxUserId := none }

/-- Fixture: authenticated list request. -/
def reqGoodIndex : Request :=
  { route := .index, authHeader := ["Bearer good"], body := none,
    paramId := "", ctxUserId := none }

/-- Fixture: authenticated create request whose body failed to parse. -/
def reqCreateNoBody : Request :=
  { route := .create, authHeader := ["Bearer good"], body := none,
    paramId := "", ctxUserId := some "u1" }

/-- Fixture: authenticated delete request with a non-numeric id segment. -/
def reqDeleteAbc : Request :=
  { route := .delete, authHeader := ["Bearer good"], body := none,
    paramId := "abc", ctxUserId := some "u1" }

theorem charToDigit_digitChar {d : Nat} (h : d < 10) :
    charToDigit (digitChar d) = d := by
  interval_cases d <;> rfl

theorem digitChar_ne_minus {d : Nat} (h : d < 10) : digitChar d ≠ '-' := by
  interval_cases d <;> decide

theorem natToStrChars_ne_minus {n : Nat} : ∀ c ∈ natToStrChars n, c ≠ '-' := by
  intro c hc
  unfold natToStrChars at hc
  split at hc
  · simp at hc
    subst hc
    decide
  · simp only [List.mem_map, List.mem_reverse] at hc
    obtain ⟨d, hd, rfl⟩ := hc
    exact digitChar_ne_minus (Nat.digits_lt_base (by norm_num) hd)

theorem decChars_natToStrChars (n : Nat) : decChars (natToStrChars n) = n := by
  unfold natToStrChars
  split
  · subst n
    rfl
  · unfold decChars
    rw [List.map_map, List.map_reverse, List.reverse_reverse]
    have hmap : (Nat.digits 10 n).map (charToDigit ∘ digitChar)
        = Nat.digits 10 n := by
      conv_rhs => rw [← List.map_id (Nat.digits 10 n)]
      apply List.map_congr_left
      intro d hd
      exact charToDigit_digitChar (Nat.digits_lt_base (by norm_num) hd)
    rw [hmap, Nat.ofDigits_digits]

theorem decodeId_mk_of_no_minus {l : List Char} (h : ∀ c ∈ l, c ≠ '-') :
    decodeId ⟨l⟩ = (decChars l : Int) := by
  unfold decodeId
  cases l with
  | nil => rfl
  | cons c rest =>
    have hc : c ≠ '-' := h c (by simp)
    simp [hc]

theorem decodeId_Itoa (i : Int) : decodeId (Itoa i) = i := by
  unfold Itoa
  split
  · next hneg =>
    show decodeId ⟨'-' :: natToStrChars i.natAbs⟩ = i
    unfold decodeId
    simp only [List.head?, List.tail, if_true, decChars_natToStrChars]
    omega
  · next hpos =>
    rw [decodeId_mk_of_no_minus natToStrChars_ne_minus,
      decChars_natToStrChars]
    omega

theorem kudoKeyEq_self (k : Kudo) : kudoKeyEq k k = true := by
  simp [kudoKeyEq]

theorem kudoKeyEq_congr {a b : Kudo} (h1 : a.RepoID = b.RepoID)
    (h2 : a.UserID = b.UserID) : kudoKeyEq a = kudoKeyEq b := by
  funext k
  simp [kudoKeyEq, h1, h2]

theorem userId_eq_of_kudoKeyEq {kd k : Kudo} (h : kudoKeyEq kd k = true) :
    k.UserID = kd.UserID := by
  simp only [kudoKeyEq, Bool.and_eq_true, beq_iff_eq] at h
  exact h.2

theorem filter_eq_nil_of_any_eq_false {p : Kudo → Bool} {l : List Kudo}
    (h : l.any p = false) : l.filter p = [] := by
  simp only [List.any_eq_false] at h
  simpa [List.filter_eq_nil_iff] using h

theorem replaceFirst_filter {store : List Kudo} {kd : Kudo}
    (h1 : store.any (kudoKeyEq kd) = true)
    (h2 : (store.filter (kudoKeyEq kd)).length ≤ 1) :
    (replaceFirst store kd).filter (kudoKeyEq kd) = [kd] := by
  induction store with
  | nil => simp at h1
  | cons k rest ih =>
    by_cases hk : kudoKeyEq kd k = true
    · have hrest : rest.filter (kudoKeyEq kd) = [] := by
        rw [List.filter_cons_of_pos hk] at h2
        simp only [List.length_cons] at h2
        have := Nat.le_of_succ_le_succ h2
        simpa [List.length_eq_zero] using Nat.le_zero.mp this
      simp [replaceFirst, hk, List.filter_cons, kudoKeyEq_self, hrest]
    · have hany : rest.any (kudoKeyEq kd) = true := by
        simpa [List.any_cons, hk] using h1
      have hlen : (rest.filter (kudoKeyEq kd)).length ≤ 1 := by
        rw [List.filter_cons_of_neg (by simpa using hk)] at h2
        exact h2
      simp [replaceFirst, hk, List.filter_cons, ih hany hlen]

theorem upsertOne_filter {store : List Kudo} {kd : Kudo}
    (h : countKey store kd ≤ 1) :
    (upsertOne store kd).filter (kudoKeyEq kd) = [kd] := by
  unfold countKey at h
  unfold upsertOne
  cases hany : store.any (kudoKeyEq kd) with
  | false =>
    rw [if_neg (by simp [hany]), List.filter_append,
      filter_eq_nil_of_any_eq_false hany]
    simp [kudoKeyEq_self]
  | true =>
    rw [if_pos rfl]
    exact replaceFirst_filter hany h

theorem filter_replaceFirst_of_excl {p : Kudo → Bool} {store : List Kudo}
    {kd : Kudo} (hkd : p kd = false)
    (himp : ∀ k, kudoKeyEq kd k = true → p k = false) :
    (replaceFirst store kd).filter p = store.filter p := by
  induction store with
  | nil => rfl
  | cons k rest ih =>
    by_cases hk : kudoKeyEq kd k = true
    · simp [replaceFirst, hk, List.filter_cons, hkd, himp k hk]
    · simp [replaceFirst, hk, List.filter_cons, ih]

theorem filter_removeFirstMatch_of_excl {p q : Kudo → Bool}
    {store : List Kudo} (himp : ∀ k, q k = true → p k = false) :
    (removeFirstMatch store q).filter p = store.filter p := by
  induction store with
  | nil => rfl
  | cons k rest ih =>
    by_cases hk : q k = true
    · simp [removeFirstMatch, hk, List.filter_cons, himp k hk]
    · simp [removeFirstMatch, hk, List.filter_cons, ih]

theorem filter_upsertOne_of_excl {p : Kudo → Bool} {store : List Kudo}
    {kd : Kudo} (hkd : p kd = false)
    (himp : ∀ k, kudoKeyEq kd k = true → p k = false) :
    (upsertOne store kd).filter p = store.filter p := by
  unfold upsertOne
  split
  · exact filter_replaceFirst_of_excl hkd himp
  · rw [List.filter_append]
    simp [hkd]

theorem ownerRecords_applyOp {A B : String} (hAB : A ≠ B)
    (store : List Kudo) (op : SvcOp) :
    ownerRecords B (applyOp A store op) = ownerRecords B store := by
  have hkd : ∀ g : GitHubRepo,
      (((NewService A).githubRepoToKudo g).UserID == B) = false := by
    intro g
    simpa [Service.githubRepoToKudo, NewService] using hAB
  have himp : ∀ (g : GitHubRepo) (k : Kudo),
      kudoKeyEq ((NewService A).githubRepoToKudo g) k = true →
      (k.UserID == B) = false := by
    intro g k hk
    rw [userId_eq_of_kudoKeyEq hk]
    exact hkd g
  cases op with
  | add g =>
    simp only [applyOp, Service.CreateKudoFor, MongoRepository.Create,
      List.foldl_cons, List.foldl_nil, ownerRecords]
    exact filter_upsertOne_of_excl (hkd g) (himp g)
  | replace g =>
    simp only [applyOp, Service.UpdateKudoWith, MongoRepository.Create,
      List.foldl_cons, List.foldl_nil, ownerRecords]
    exact filter_upsertOne_of_excl (hkd g) (himp g)
  | remove g =>
    simp only [applyOp, Service.RemoveKudo, MongoRepository.Delete]
    cases hany : store.any (kudoKeyEq ((NewService A).githubRepoToKudo g)) with
    | false =>
      simp [removeResultStore]
    | true =>
      simpa [removeResultStore, ownerRecords]
        using filter_removeFirstMatch_of_excl (p := fun k => k.UserID == B)
          (himp g)

theorem ownerRecords_applyOps {A B : String} (hAB : A ≠ B) (ops : List SvcOp) :
    ∀ store, ownerRecords B (applyOps A ops store) = ownerRecords B store := by
  induction ops with
  | nil => intro store; rfl
  | cons op rest ih =>
    intro store
    unfold applyOps at ih ⊢
    rw [List.foldl_cons, ih, ownerRecords_applyOp hAB]

theorem getKudos_all_ne (A B : String) (hAB : A ≠ B) (store : List Kudo) :
    ((NewService A).GetKudos store).all (fun k => k.UserID != B) = true := by
  rw [List.all_eq_true]
  intro k hk
  have hmem := (List.mem_filter.mp hk).2
  have hkA : k.UserID = A := by simpa using hmem
  simpa [bne_iff_ne, hkA] using hAB

theorem headers_writeHeader (w : ResponseWriter) (c : Nat) :
    (writeHeader w c).headers = w.headers := by
  unfold writeHeader
  split <;> rfl

theorem headers_bodyWrite (w : ResponseWriter) (s : String) :
    (bodyWrite w s).headers = w.headers := by
  unfold bodyWrite
  split <;> rfl

theorem headersOf_index {r : Request} {store : List Kudo} {w : ResponseWriter}
    {uid : String} (hctx : r.ctxUserId = some uid) :
    headersOf (Http.Index r store w) = w.headers := by
  unfold Http.Index
  rw [hctx]
  simp [headersOf, headers_bodyWrite, headers_writeHeader]

theorem headersOf_create {r : Request} {store : List Kudo} {w : ResponseWriter}
    {uid : String} (hctx : r.ctxUserId = some uid) :
    headersOf (Http.Create r store w) = w.headers := by
  unfold Http.Create
  rw [hctx]
  simp [headersOf, headers_bodyWrite, headers_writeHeader]

theorem headersOf_update {r : Request} {store : List Kudo} {w : ResponseWriter}
    {uid : String} (hctx : r.ctxUserId = some uid) :
    headersOf (Http.Update r store w) = w.headers := by
  unfold Http.Update
  rw [hctx]
  simp [headersOf, headers_bodyWrite, headers_writeHeader]

theorem headersOf_delete {r : Request} {store : List Kudo} {w : ResponseWriter}
    {uid : String} (hctx : r.ctxUserId = some uid) :
    headersOf (Http.Delete r store w) = w.headers := by
  unfold Http.Delete
  rw [hctx]
  have hres : ∀ (res : Except MgoError (Kudo × List Kudo)),
      headersOf (match res with
        | .error _ => HOutcome.done (writeHeader w 500) store
        | .ok res2 => HOutcome.done (writeHeader w 200) res2.2) = w.headers := by
    intro res
    cases res <;> simp [headersOf, headers_writeHeader]
  exact hres _

theorem headersOf_router {r : Request} {store : List Kudo} {w : ResponseWriter}
    {uid : String} (hctx : r.ctxUserId = some uid) :
    headersOf (router r store w) = w.headers := by
  unfold router
  split
  · exact headersOf_index hctx
  · exact headersOf_create hctx
  · exact headersOf_delete hctx
  · exact headersOf_update hctx

theorem app_headers_of_gate_pass {verify : String → Except String Jwt}
    {r : Request} {store : List Kudo} {uid : String}
    (hgate : gateSub verify r.authHeader = some uid) :
    headersOf (App verify r store emptyWriter)
      = [("Content-Type", "application/json")] := by
  unfold gateSub at hgate
  unfold App UseMiddlewares AccsessLog Cors OktaAuth JSONApi
  cases hval : validateAccessToken verify r.authHeader with
  | panicked => rw [hval] at hgate; simp at hgate
  | failed e => rw [hval] at hgate; simp at hgate
  | verified jwt =>
    rw [hval] at hgate
    have hsub : jwt.sub = some uid := hgate
    show headersOf (match jwt.sub with
      | none => HOutcome.panicked
      | some u => router { r with ctxUserId := some u } store
          (headerSet emptyWriter "Content-Type" "application/json"))
        = [("Content-Type", "application/json")]
    rw [hsub]
    exact (headersOf_router (show ({ r with ctxUserId := some uid } : Request).ctxUserId
      = some uid from rfl)).trans rfl

/-- C1: the identifier coercion performed by `Service.githubRepoToKudo`
(numeric external id → stored string id, `strconv.Itoa(int(RepoID))`) is
deterministic and lossless for every representable 64-bit integer id:
the original id is recovered from the stored string by `decodeId`, and
distinct ids produce distinct stored strings. -/
theorem C1_identifier_coercion_lossless (s : Service) (g g2 : GitHubRepo)
    (_hlo : -(2 ^ 63) ≤ g.RepoID) (_hhi : g.RepoID < 2 ^ 63)
    (_hlo2 : -(2 ^ 63) ≤ g2.RepoID) (_hhi2 : g2.RepoID < 2 ^ 63)
    (hne : g.RepoID ≠ g2.RepoID) :
    decodeId ((s.githubRepoToKudo g).RepoID) = g.RepoID ∧
    (s.githubRepoToKudo g).RepoID ≠ (s.githubRepoToKudo g2).RepoID := by
  constructor
  · exact decodeId_Itoa g.RepoID
  · intro heq
    apply hne
    have h1 := decodeId_Itoa g.RepoID
    have h2 := decodeId_Itoa g2.RepoID
    rw [← h1, ← h2]
    exact congrArg decodeId heq

/-- Witness for C1 at the concrete identifiers 42 and -7. -/
theorem C1_identifier_coercion_lossless_witness :
    decodeId ((svcU1.githubRepoToKudo repo42a).RepoID) = repo42a.RepoID ∧
    (svcU1.githubRepoToKudo repo42a).RepoID
      ≠ (svcU1.githubRepoToKudo repoNeg7).RepoID :=
  C1_identifier_coercion_lossless svcU1 repo42a repoNeg7 (by decide) (by decide)
    (by decide) (by decide) (by decide)

/-- C2 is refuted by the code: a request with no Authorization header, and
a request whose header value has no space separator, both make the gate
panic (out-of-range indexing `accessToken[0]` resp. `parts[1]` inside
`validateAccessToken`) instead of producing the authorization-denied
response the gate's own description promises. -/
theorem C2_gate_crashes_on_missing_or_malformed_header :
    App rejectAll reqNoAuthHeader [] emptyWriter = .panicked ∧
    App rejectAll reqNoSpaceHeader [] emptyWriter = .panicked :=
  ⟨rfl, rfl⟩

/-- C3 counterexample: removing a bookmark that was never created (empty
store) reports an error instead of succeeding — refuting the claim that
deleting an absent key is not an error. -/
theorem C3_cex_delete_absent_is_error :
    svcU1.RemoveKudo repo42a [] = .error .notFound ∧
    MongoRepository.Delete [] (svcU1.githubRepoToKudo repo42a)
      = .error .notFound :=
  ⟨rfl, rfl⟩

/-- C3 (amended): deleting a record whose (owner, repo) key is absent
returns mgo's not-found error — propagated unchanged by `RemoveKudo`, and
turned into a 500 by the HTTP layer — while the store itself is left
unchanged.  Delete is therefore not an idempotent success on absent
keys. -/
theorem C3_amended_delete_absent_not_found (s : Service) (g : GitHubRepo)
    (store : List Kudo)
    (habs : store.any (kudoKeyEq (s.githubRepoToKudo g)) = false) :
    MongoRepository.Delete store (s.githubRepoToKudo g) = .error .notFound ∧
    s.RemoveKudo g store = .error .notFound ∧
    removeResultStore (s.RemoveKudo g store) store = store := by
  have hdel : MongoRepository.Delete store (s.githubRepoToKudo g)
      = .error .notFound := by
    unfold MongoRepository.Delete
    rw [if_neg (by simp [habs])]
  have hrm : s.RemoveKudo g store = .error .notFound := by
    show (match MongoRepository.Delete store (s.githubRepoToKudo g) with
      | .error e => Except.error e
      | .ok store2 => Except.ok (s.githubRepoToKudo g, store2))
      = Except.error MgoError.notFound
    rw [hdel]
  refine ⟨hdel, hrm, ?_⟩
  rw [hrm]
  rfl

/-- Witness for C3's amended statement on the empty store. -/
theorem C3_amended_witness :
    MongoRepository.Delete [] (svcU1.githubRepoToKudo repoNeg7)
      = .error .notFound ∧
    svcU1.RemoveKudo repoNeg7 [] = .error .notFound ∧
    removeResultStore (svcU1.RemoveKudo repoNeg7 []) [] = [] :=
  C3_amended_delete_absent_not_found svcU1 repoNeg7 [] rfl

/-- C4: adding the same external repository twice for one owner leaves
exactly one record under the (owner, repo) key, and that record carries
the field values of the second call — the store-level `Create` is an
upsert keyed on (`userId`, `repoId`). -/
theorem C4_addBookmark_twice_upserts (s : Service) (g1 g2 : GitHubRepo)
    (store : List Kudo) (hid : g1.RepoID = g2.RepoID)
    (hwf : countKey store (s.githubRepoToKudo g2) ≤ 1) :
    ((s.CreateKudoFor g2 (s.CreateKudoFor g1 store).2).2).filter
        (kudoKeyEq (s.githubRepoToKudo g2)) = [s.githubRepoToKudo g2] ∧
    countKey ((s.CreateKudoFor g2 (s.CreateKudoFor g1 store).2).2)
        (s.githubRepoToKudo g2) = 1 := by
  have hkeq : kudoKeyEq (s.githubRepoToKudo g1)
      = kudoKeyEq (s.githubRepoToKudo g2) := by
    apply kudoKeyEq_congr
    · show Itoa g1.RepoID = Itoa g2.RepoID
      rw [hid]
    · rfl
  have hwf1 : countKey store (s.githubRepoToKudo g1) ≤ 1 := by
    unfold countKey at hwf ⊢
    rw [hkeq]
    exact hwf
  have hfil1 : (upsertOne store (s.githubRepoToKudo g1)).filter
      (kudoKeyEq (s.githubRepoToKudo g1)) = [s.githubRepoToKudo g1] :=
    upsertOne_filter hwf1
  have hcount1 : countKey (upsertOne store (s.githubRepoToKudo g1))
      (s.githubRepoToKudo g2) ≤ 1 := by
    unfold countKey
    rw [← hkeq, hfil1]
    simp
  have hfin : ((s.CreateKudoFor g2 (s.CreateKudoFor g1 store).2).2).filter
      (kudoKeyEq (s.githubRepoToKudo g2)) = [s.githubRepoToKudo g2] := by
    show (upsertOne (upsertOne store (s.githubRepoToKudo g1))
        (s.githubRepoToKudo g2)).filter (kudoKeyEq (s.githubRepoToKudo g2))
      = [s.githubRepoToKudo g2]
    exact upsertOne_filter hcount1
  refine ⟨hfin, ?_⟩
  unfold countKey
  rw [hfin]
  rfl

/-- Witness for C4: bookmarking repository 42 twice for owner u1, with
different descriptive fields, starting from the empty store. -/
theorem C4_addBookmark_twice_upserts_witness :
    ((svcU1.CreateKudoFor repo42b (svcU1.CreateKudoFor repo42a []).2).2).filter
        (kudoKeyEq (svcU1.githubRepoToKudo repo42b))
      = [svcU1.githubRepoToKudo repo42b] ∧
    countKey ((svcU1.CreateKudoFor repo42b (svcU1.CreateKudoFor repo42a []).2).2)
        (svcU1.githubRepoToKudo repo42b) = 1 :=
  C4_addBookmark_twice_upserts svcU1 repo42a repo42b [] rfl (by decide)

/-- C5: the bound owner is an authorization boundary — no sequence of
add/replace/remove operations performed through a service bound to owner
A touches records of a distinct owner B, and a list through A's service
never returns a record of B. -/
theorem C5_owner_isolation (A B : String) (ops : List SvcOp)
    (store : List Kudo) (hAB : A ≠ B) :
    ownerRecords B (applyOps A ops store) = ownerRecords B store ∧
    ((NewService A).GetKudos (applyOps A ops store)).all
      (fun k => k.UserID != B) = true :=
  ⟨ownerRecords_applyOps hAB ops store, getKudos_all_ne A B hAB _⟩

/-- Witness for C5: owner u1 adds, replaces and removes repository 42
over a store holding a record of owner u2. -/
theorem C5_owner_isolation_witness :
    ownerRecords "u2" (applyOps "u1"
        [.add repo42a, .replace repo42b, .remove repo42b] [kudoU2of7])
      = ownerRecords "u2" [kudoU2of7] ∧
    ((NewService "u1").GetKudos (applyOps "u1"
        [.add repo42a, .replace repo42b, .remove repo42b] [kudoU2of7])).all
      (fun k => k.UserID != "u2") = true :=
  C5_owner_isolation "u1" "u2"
    [.add repo42a, .replace repo42b, .remove repo42b] [kudoU2of7] (by decide)

/-- C6 counterexample: a request the gate rejects receives a 403 response
carrying no `Content-Type` header at all — `JSONApi` sits inside
`OktaAuth` in the middleware chain, so gate rejections never reach it.
This refutes the claim that every response carries the JSON content
type. -/
theorem C6_cex_403_lacks_json_content_type :
    App rejectAll reqBadTok [] emptyWriter
      = .done { headers := [], status := some 403, body := "Unauthorized" } [] ∧
    List.lookup "Content-Type"
        (headersOf (App rejectAll reqBadTok [] emptyWriter)) = none :=
  ⟨rfl, rfl⟩

/-- C6 (amended): every response produced once the authentication gate has
passed — handler 200/201 successes and 500 store-failure responses alike —
carries `Content-Type: application/json`, because `JSONApi` sets the
header before the router runs and no handler modifies headers.
Gate-rejected 403 responses are emitted outside `JSONApi` and do not
carry it. -/
theorem C6_amended_responses_past_gate_json
    (verify : String → Except String Jwt) (r : Request) (store : List Kudo)
    (uid : String) (hgate : gateSub verify r.authHeader = some uid) :
    List.lookup "Content-Type" (headersOf (App verify r store emptyWriter))
      = some "application/json" := by
  rw [app_headers_of_gate_pass hgate]
  rfl

/-- Witness for C6's amended statement: an authenticated list request. -/
theorem C6_amended_witness :
    List.lookup "Content-Type"
        (headersOf (App verifyU1 reqGoodIndex [kudoU2of7] emptyWriter))
      = some "application/json" :=
  C6_amended_responses_past_gate_json verifyU1 reqGoodIndex [kudoU2of7] "u1" rfl

/-- C7: the update path of the service performs exactly the same mapping
and the same upsert as the create path and returns the same result —
`UpdateKudoWith` and `CreateKudoFor` are extensionally equal functions of
the input and the store state (both call `repo.Create` on
`githubRepoToKudo`'s output). -/
theorem C7_update_equals_create (s : Service) (g : GitHubRepo)
    (store : List Kudo) :
    s.UpdateKudoWith g store = s.CreateKudoFor g store := rfl

/-- C8 counterexample: a record stored for owner u1 and repository 42 is
present, yet the lookup for repository 42 misses it — `Find` accepts no
owner argument and filters on the zero-valued owner string, so it is not
the claimed owner-scoped (ownerID, repoID) lookup. -/
theorem C8_cex_find_misses_present_record :
    MongoRepository.Find "42" [kudoU1of42] = none ∧
    kudoU1of42 ∈ [kudoU1of42] ∧ kudoU1of42.RepoID = "42" ∧
    kudoU1of42.UserID = "u1" :=
  ⟨rfl, by simp, rfl, rfl⟩

/-- C8 (amended): the store lookup takes only the repository identifier;
it returns a stored record exactly when one with that `repoId` and the
empty owner string is present (the Go method reads its `userId` criterion
from the freshly declared zero-valued result variable), and reports
not-found otherwise.  It is not scoped by a caller-supplied owner. -/
theorem C8_amended_find_characterization (repoID : String)
    (store : List Kudo) :
    (match MongoRepository.Find repoID store with
      | some k => decide (k ∈ store) && (k.RepoID == repoID) && (k.UserID == "")
      | none => store.all (fun k => !((k.RepoID == repoID) && (k.UserID == ""))))
      = true := by
  induction store with
  | nil => rfl
  | cons k rest ih =>
    unfold MongoRepository.Find at ih ⊢
    cases hk : (k.RepoID == repoID && k.UserID == "") with
    | true =>
      rw [List.find?_cons_of_pos
        (p := fun k2 => k2.RepoID == repoID && k2.UserID == "") rest hk]
      simp only [Bool.and_eq_true, beq_iff_eq] at hk
      simp [List.mem_cons, hk.1, hk.2]
    | false =>
      rw [List.find?_cons_of_neg
        (p := fun k2 => k2.RepoID == repoID && k2.UserID == "") rest
        (by simp [hk])]
      cases hf : rest.find? (fun k2 => k2.RepoID == repoID && k2.UserID == "") with
      | none =>
        rw [hf] at ih
        have ih2 : rest.all (fun k2 => !(k2.RepoID == repoID && k2.UserID == ""))
            = true := ih
        rw [List.all_cons, hk]
        simp only [Bool.not_false, Bool.true_and]
        exact ih2
      | some k2 =>
        rw [hf] at ih
        simp only [Bool.and_eq_true, decide_eq_true_eq] at ih ⊢
        exact ⟨⟨List.mem_cons_of_mem _ ih.1.1, ih.1.2⟩, ih.2⟩

/-- C9: when the body of a create or update request fails to parse, the
handler does not reject the request: it proceeds with the zero-valued
external representation — stored under repository id "0" — and answers
the success status (201 resp. 200) with that zero-valued record
upserted. -/
theorem C9_unparsable_body_defaults_to_zero (r : Request) (store : List Kudo)
    (w : ResponseWriter) (uid : String)
    (hctx : r.ctxUserId = some uid) (hbody : r.body = none) :
    ((NewService uid).githubRepoToKudo GitHubRepo.zero).RepoID = "0" ∧
    Http.Create r store w
      = .done (bodyWrite (writeHeader w 201)
          (encodeKudo ((NewService uid).githubRepoToKudo GitHubRepo.zero) ++ "\n"))
          (upsertOne store ((NewService uid).githubRepoToKudo GitHubRepo.zero)) ∧
    Http.Update r store w
      = .done (bodyWrite (writeHeader w 200)
          (encodeKudo ((NewService uid).githubRepoToKudo GitHubRepo.zero) ++ "\n"))
          (upsertOne store ((NewService uid).githubRepoToKudo GitHubRepo.zero)) := by
  refine ⟨rfl, ?_, ?_⟩
  · unfold Http.Create
    rw [hctx, hbody]
    rfl
  · unfold Http.Update
    rw [hctx, hbody]
    rfl

/-- Witness for C9: the fixture create request with an unparsable body,
for both the create and the update handler. -/
theorem C9_unparsable_body_witness :
    ((NewService "u1").githubRepoToKudo GitHubRepo.zero).RepoID = "0" ∧
    Http.Create reqCreateNoBody [] emptyWriter
      = .done (bodyWrite (writeHeader emptyWriter 201)
          (encodeKudo ((NewService "u1").githubRepoToKudo GitHubRepo.zero) ++ "\n"))
          (upsertOne [] ((NewService "u1").githubRepoToKudo GitHubRepo.zero)) ∧
    Http.Update reqCreateNoBody [] emptyWriter
      = .done (bodyWrite (writeHeader emptyWriter 200)
          (encodeKudo ((NewService "u1").githubRepoToKudo GitHubRepo.zero) ++ "\n"))
          (upsertOne [] ((NewService "u1").githubRepoToKudo GitHubRepo.zero)) :=
  C9_unparsable_body_defaults_to_zero reqCreateNoBody [] emptyWriter "u1" rfl rfl

/-- C10: when the `:id` segment of a delete request is not a decimal
integer string, the handler silently uses identifier 0 — `strconv.Atoi`'s
error is discarded — and behaves exactly as a delete of repository id "0"
for the authenticated owner; the malformed identifier itself is never
reported to the caller. -/
theorem C10_malformed_delete_id_acts_as_zero (r : Request)
    (store : List Kudo) (w : ResponseWriter)
    (hid : parseDecimal r.paramId = none) :
    (Atoi r.paramId).1 = 0 ∧
    Http.Delete r store w = Http.Delete { r with paramId := "0" } store w := by
  have hz : Atoi r.paramId = (0, false) := by
    unfold Atoi
    rw [hid]
  constructor
  · rw [hz]
  · unfold Http.Delete
    rw [hz]
    rfl

/-- Witness for C10 at the concrete malformed id segment "abc". -/
theorem C10_malformed_delete_id_witness :
    (Atoi reqDeleteAbc.paramId).1 = 0 ∧
    Http.Delete reqDeleteAbc [kudoU2of7] emptyWriter
      = Http.Delete { reqDeleteAbc with paramId := "0" } [kudoU2of7] emptyWriter :=
  C10_malformed_delete_id_acts_as_zero reqDeleteAbc [kudoU2of7] emptyWriter rfl
